/-
Verification of the Lake Owens data-preparation pipeline
(scripts/data_preparation.py) against its specification.

The pandas DataFrame is embedded as a `Table`: an ordered list of column
names together with rows, each row a list of `Value`s aligned with the
column list.  Numbers are modelled as rationals; the pandas null markers
(NaN / NaT / None) are collapsed into the single sentinel `Value.null`,
matching the spec's "null marker".  Operations that pandas aborts with a
`KeyError` (reading a missing column) return `none`; all other behaviour
is total.
-/
import Mathlib

/-- Cell values of the tabular data model: strings, numbers (rationals,
standing in for the floats pandas uses), datetimes (an abstract integer
timestamp), booleans, and the explicit null marker (pandas NaN/NaT). -/
inductive Value where
  | null : Value
  | str (s : String) : Value
  | num (q : Rat) : Value
  | dt (t : Int) : Value
  | bool (b : Bool) : Value
deriving DecidableEq, Repr

/-- Whether a cell holds the null marker (pandas `isna`). -/
def Value.isNull : Value → Bool
  | Value.null => true
  | _ => false

/-- In-memory table: ordered column names plus rows of cells aligned with
the column list (the pandas DataFrame of the script). -/
structure Table where
  cols : List String
  rows : List (List Value)
deriving DecidableEq, Repr

/-- Well-formedness: every row has exactly one cell per column.  A real
DataFrame is never ragged; rows of the wrong length cannot arise there. -/
def Table.wf (t : Table) : Bool :=
  t.rows.all (fun r => r.length == t.cols.length)

/-- Read the cell of row `r` under column name `c` (pandas `df[c]` for one
row).  Missing columns and out-of-range positions read as null; the
operations below guard column presence separately where pandas raises. -/
def getCell (cols : List String) (r : List Value) (c : String) : Value :=
  if c ∈ cols then r.getD (List.indexOf c cols) Value.null else Value.null

/-- Column assignment `df[c] = series` where the new series is computed
row-wise from the old row: pandas overwrites an existing column in place
and appends a new column at the end. -/
def assignColumn (df : Table) (c : String) (f : List Value → Value) : Table :=
  if c ∈ df.cols then
    { cols := df.cols,
      rows := df.rows.map (fun r => r.set (List.indexOf c df.cols) (f r)) }
  else
    { cols := df.cols ++ [c],
      rows := df.rows.map (fun r => r ++ [f r]) }

/-- The critical columns of `clean_data` in scripts/data_preparation.py. -/
def critical_columns : List String := ["Max_PM10", "Avg_PM10_24Hour"]

/-- A row survives `dropna(subset=critical_columns)`: no critical cell is
null. -/
def rowComplete (cols : List String) (r : List Value) : Bool :=
  critical_columns.all (fun c => !(getCell cols r c).isNull)

/-- Duplicate removal keeping the first occurrence of each row, the
semantics of pandas `drop_duplicates()` (default `keep='first'`); `seen`
accumulates the rows already emitted. -/
def dropDupsAux (seen : List (List Value)) : List (List Value) → List (List Value)
  | [] => []
  | r :: rs =>
    if r ∈ seen then dropDupsAux seen rs
    else r :: dropDupsAux (r :: seen) rs

/-- pandas `df.drop_duplicates()`: remove exact duplicate rows, keeping
each row's first occurrence. -/
def drop_duplicates (rows : List (List Value)) : List (List Value) :=
  dropDupsAux [] rows

/-- Embedding of `clean_data`: drop rows with a null in a critical column
(`df.dropna(subset=critical_columns)`), then drop exact duplicate rows
(`df.drop_duplicates()`).  pandas raises a `KeyError` when a subset column
is missing, modelled as `none`. -/
def clean_data (df : Table) : Option Table :=
  if critical_columns.all (fun c => decide (c ∈ df.cols)) then
    some { cols := df.cols,
           rows := drop_duplicates (df.rows.filter (fun r => rowComplete df.cols r)) }
  else none

/-- One cell under `pd.to_datetime(·, errors='coerce')`: the abstract
parser `parse` stands for the pandas datetime parser; `errors='coerce'`
sends every parse failure to the null marker (NaT) instead of raising. -/
def coerceDatetime (parse : Value → Option Int) (v : Value) : Value :=
  match parse v with
  | some t => Value.dt t
  | none => Value.null

/-- One iteration of the loop in `convert_datetime_columns`:
`df[col] = pd.to_datetime(df[col], errors='coerce')`.  Reading `df[col]`
for a missing column raises a `KeyError`, modelled as `none`. -/
def convertColumn (parse : Value → Option Int) (df : Table) (c : String) : Option Table :=
  if c ∈ df.cols then
    some { cols := df.cols,
           rows := df.rows.map (fun r =>
             r.set (List.indexOf c df.cols)
               (coerceDatetime parse (r.getD (List.indexOf c df.cols) Value.null))) }
  else none

/-- Embedding of `convert_datetime_columns`: convert each listed column in
order, stopping with a `KeyError` (`none`) at the first missing column. -/
def convert_datetime_columns (parse : Value → Option Int) (df : Table) :
    List String → Option Table
  | [] => some df
  | c :: rest =>
    match convertColumn parse df c with
    | some df2 => convert_datetime_columns parse df2 rest
    | none => none

/-- The comparison `cell > threshold` used by the flagger, with pandas
null semantics: NaN compared to a number is `False`; booleans count as
0/1 as in pandas; non-numeric cells compare as `False`. -/
def valueGt (v : Value) (threshold : Rat) : Bool :=
  match v with
  | Value.num q => threshold < q
  | Value.bool b => threshold < (if b then (1 : Rat) else 0)
  | _ => false

/-- Embedding of `identify_high_impact_events`:
`df['High Impact'] = df[pollutant_column] > threshold`.  Reading a missing
pollutant column raises a `KeyError` (`none`); the assignment overwrites an
existing 'High Impact' column or appends a new one. -/
def identify_high_impact_events (df : Table) (pollutant_column : String)
    (threshold : Rat) : Option Table :=
  if pollutant_column ∈ df.cols then
    some (assignColumn df "High Impact"
      (fun r => Value.bool (valueGt (r.getD (List.indexOf pollutant_column df.cols) Value.null) threshold)))
  else none

/-- Embedding of the projection `df[columns_of_interest]` in the main
block: keep exactly the requested columns in the requested order; a
missing requested column raises a `KeyError` (`none`). -/
def projectColumns (df : Table) (cols : List String) : Option Table :=
  if cols.all (fun c => decide (c ∈ df.cols)) then
    some { cols := cols,
           rows := df.rows.map (fun r => cols.map (fun c => getCell df.cols r c)) }
  else none

/-- Embedding of `load_data`: `fs` models the filesystem as a partial map
from paths to parsed tables; a missing file (`none`) is the
`FileNotFoundError` case, which the function catches and turns into the
absent value `None`. -/
def load_data (fs : String → Option Table) (file_path : String) : Option Table :=
  fs file_path

/-- Embedding of `save_cleaned_data`: `write` models `df.to_csv`, either
succeeding or failing with an exception message.  The function catches any
failure, reports a message, and returns normally; its result is only the
printed message, never a success/failure value. -/
def save_cleaned_data (write : String → Table → Except String Unit)
    (df : Table) (output_path : String) : String :=
  match write output_path df with
  | Except.ok _ => "Cleaned data saved to " ++ output_path
  | Except.error e => "Error saving file: " ++ e

/-- Input path hardcoded in the main block. -/
def data_path : String := "../data/yesterday_air_monitors.csv"

/-- Output path hardcoded in the main block. -/
def output_path : String := "../data/high_impact_data.csv"

/-- The `columns_of_interest` projection list of the main block. -/
def columns_of_interest : List String :=
  ["SiteName", "Max_PM10", "Max_PM10_datetime", "Max_ASPD",
   "Max_ASPD_Direction", "Avg_PM10_24Hour"]

/-- The `datetime_columns` list of the main block. -/
def datetime_columns : List String := ["Yesterday", "Installed", "Max_PM10_datetime"]

/-- The PM10 threshold of the main block. -/
def pm10_threshold : Rat := 100

/-- Outcome of a run of the main block: the loader returned the absent
value and the pipeline halted before cleaning; an unguarded column lookup
raised a fatal `KeyError`; or the run reached the save step with the given
table. -/
inductive RunResult where
  | halted : RunResult
  | fatalError : RunResult
  | finished (saved : Table) : RunResult
deriving DecidableEq, Repr

/-- Embedding of the `__main__` block: load, and if a table came back,
clean, convert datetimes, project the columns of interest, flag
high-impact events, and hand the result to the saver. -/
def run_pipeline (parse : Value → Option Int) (fs : String → Option Table) : RunResult :=
  match load_data fs data_path with
  | none => RunResult.halted
  | some df =>
    match clean_data df with
    | none => RunResult.fatalError
    | some df1 =>
      match convert_datetime_columns parse df1 datetime_columns with
      | none => RunResult.fatalError
      | some df2 =>
        match projectColumns df2 columns_of_interest with
        | none => RunResult.fatalError
        | some df3 =>
          match identify_high_impact_events df3 "Max_PM10" pm10_threshold with
          | none => RunResult.fatalError
          | some df4 => RunResult.finished df4

/-- Claim-side rendering of "keep the first occurrence of each group of
identical rows": a row survives exactly when it does not occur among the
rows before it in the original list (`pre` is that prefix). -/
def keepFirstOcc (pre : List (List Value)) : List (List Value) → List (List Value)
  | [] => []
  | r :: rs =>
    if r ∈ pre then keepFirstOcc (pre ++ [r]) rs
    else r :: keepFirstOcc (pre ++ [r]) rs

/-- A cell is a valid datetime or the null marker (never raw text). -/
def Value.isDtOrNull : Value → Bool
  | Value.dt _ => true
  | Value.null => true
  | _ => false

/-- Concrete table taken from the spec's scenario: three readings, one with
a null critical cell. -/
def exScenario : Table :=
  { cols := ["Max_PM10", "Avg_PM10_24Hour"],
    rows := [[Value.num 120, Value.num 80],
             [Value.null, Value.num 80],
             [Value.num 50, Value.num 80]] }

/-- The scenario table after cleaning: the row with the null critical cell
is gone. -/
def exScenarioCleaned : Table :=
  { cols := ["Max_PM10", "Avg_PM10_24Hour"],
    rows := [[Value.num 120, Value.num 80],
             [Value.num 50, Value.num 80]] }

/-- Concrete table with two fully identical rows. -/
def exDup : Table :=
  { cols := ["Max_PM10", "Avg_PM10_24Hour"],
    rows := [[Value.num 120, Value.num 80],
             [Value.num 120, Value.num 80],
             [Value.num 50, Value.num 80]] }

/-- Concrete table that already carries a 'High Impact' column. -/
def exPreFlagged : Table :=
  { cols := ["Max_PM10", "High Impact"],
    rows := [[Value.num 200, Value.str "x"]] }

/-- Concrete input table holding every column the pipeline touches. -/
def exFull : Table :=
  { cols := ["SiteName", "Max_PM10", "Max_PM10_datetime", "Max_ASPD",
             "Max_ASPD_Direction", "Avg_PM10_24Hour", "Yesterday", "Installed"],
    rows := [[Value.str "Keeler", Value.num 120, Value.str "2014-07-01 08:00",
              Value.num 30, Value.str "N", Value.num 80,
              Value.str "2014-07-01", Value.str "2010-01-01"]] }

/-- A filesystem holding only the pipeline's input file. -/
def exFs : String → Option Table :=
  fun p => if p = data_path then some exFull else none

/-- A datetime parser that fails on every value, so every converted cell
coerces to the null marker. -/
def exParseNone : Value → Option Int := fun _ => none

/-- The table the pipeline hands to the saver when run on `exFs` with
`exParseNone`. -/
def exSaved : Table :=
  { cols := ["SiteName", "Max_PM10", "Max_PM10_datetime", "Max_ASPD",
             "Max_ASPD_Direction", "Avg_PM10_24Hour", "High Impact"],
    rows := [[Value.str "Keeler", Value.num 120, Value.null, Value.num 30,
              Value.str "N", Value.num 80, Value.bool true]] }

/-- A writer whose underlying `to_csv` call always fails. -/
def exFailWrite : String → Table → Except String Unit :=
  fun _ _ => Except.error "disk full"

/-! Helper lemmas about list access, cell access, and duplicate removal. -/

theorem getD_set_ne (l : List Value) (i j : Nat) (v d : Value) (h : i ≠ j) :
    (l.set j v).getD i d = l.getD i d := by
  simp [List.getD_eq_getElem?_getD, List.getElem?_set_ne (Ne.symm h)]

theorem getD_set_self (l : List Value) (j : Nat) (v d : Value) (h : j < l.length) :
    (l.set j v).getD j d = v := by
  simp [List.getD_eq_getElem?_getD, List.getElem?_set_self, h]

theorem getD_append_left (l l2 : List Value) (i : Nat) (d : Value) (h : i < l.length) :
    (l ++ l2).getD i d = l.getD i d := by
  simp [List.getD_eq_getElem?_getD, List.getElem?_append_left h]

theorem getD_append_self (l : List Value) (v d : Value) :
    (l ++ [v]).getD l.length d = v := by
  simp [List.getD_eq_getElem?_getD]

theorem getCell_eq_getD (cols : List String) (r : List Value) (c : String) (h : c ∈ cols) :
    getCell cols r c = r.getD (List.indexOf c cols) Value.null := by
  simp [getCell, h]

theorem indexOf_ne_indexOf (cols : List String) (c c2 : String)
    (hc : c ∈ cols) (hc2 : c2 ∈ cols) (hne : c2 ≠ c) :
    List.indexOf c2 cols ≠ List.indexOf c cols := by
  intro heq
  apply hne
  have h1 : cols[List.indexOf c2 cols]? = some c2 := List.getElem?_indexOf hc2
  have h2 : cols[List.indexOf c cols]? = some c := List.getElem?_indexOf hc
  rw [heq, h2] at h1
  exact (Option.some.inj h1).symm

theorem getCell_set_ne (cols : List String) (r : List Value) (c c2 : String) (v : Value)
    (hc : c ∈ cols) (hne : c2 ≠ c) :
    getCell cols (r.set (List.indexOf c cols) v) c2 = getCell cols r c2 := by
  by_cases h2 : c2 ∈ cols
  · rw [getCell_eq_getD _ _ _ h2, getCell_eq_getD _ _ _ h2]
    exact getD_set_ne _ _ _ _ _ (indexOf_ne_indexOf cols c c2 hc h2 hne)
  · simp [getCell, h2]

theorem getCell_set_self (cols : List String) (r : List Value) (c : String) (v : Value)
    (hc : c ∈ cols) (hlen : r.length = cols.length) :
    getCell cols (r.set (List.indexOf c cols) v) c = v := by
  rw [getCell_eq_getD _ _ _ hc]
  exact getD_set_self _ _ _ _ (hlen ▸ List.indexOf_lt_length.2 hc)

theorem wf_row_length {df : Table} (hwf : df.wf = true) {r : List Value}
    (hr : r ∈ df.rows) : r.length = df.cols.length := by
  have := List.all_eq_true.1 hwf r hr
  simpa using this

theorem dropDupsAux_sublist (xs : List (List Value)) :
    ∀ seen, (dropDupsAux seen xs).Sublist xs := by
  induction xs with
  | nil => intro seen; simp [dropDupsAux]
  | cons x xs ih =>
    intro seen
    simp only [dropDupsAux]
    by_cases hx : x ∈ seen
    · rw [if_pos hx]; exact (ih seen).cons x
    · rw [if_neg hx]; exact (ih (x :: seen)).cons₂ x

theorem mem_dropDupsAux (x : List Value) (xs : List (List Value)) :
    ∀ seen, x ∈ dropDupsAux seen xs ↔ (x ∈ xs ∧ x ∉ seen) := by
  induction xs with
  | nil => intro seen; simp [dropDupsAux]
  | cons y ys ih =>
    intro seen
    simp only [dropDupsAux]
    by_cases hy : y ∈ seen
    · rw [if_pos hy, ih seen]
      simp only [List.mem_cons]
      constructor
      · rintro ⟨hmem, hns⟩
        exact ⟨Or.inr hmem, hns⟩
      · rintro ⟨rfl | h, hns⟩
        · exact absurd hy hns
        · exact ⟨h, hns⟩
    · rw [if_neg hy]
      simp only [List.mem_cons, ih (y :: seen), List.mem_cons]
      constructor
      · rintro (rfl | ⟨hmem, hns⟩)
        · exact ⟨Or.inl rfl, hy⟩
        · exact ⟨Or.inr hmem, fun hc => hns (Or.inr hc)⟩
      · rintro ⟨rfl | hmem, hns⟩
        · exact Or.inl rfl
        · by_cases hxy : x = y
          · exact Or.inl hxy
          · exact Or.inr ⟨hmem, fun hc => hc.elim hxy hns⟩

theorem nodup_dropDupsAux (xs : List (List Value)) :
    ∀ seen, (dropDupsAux seen xs).Nodup := by
  induction xs with
  | nil => intro seen; simp [dropDupsAux]
  | cons y ys ih =>
    intro seen
    simp only [dropDupsAux]
    by_cases hy : y ∈ seen
    · rw [if_pos hy]; exact ih seen
    · rw [if_neg hy]
      refine List.nodup_cons.2 ⟨?_, ih (y :: seen)⟩
      intro hmem
      exact ((mem_dropDupsAux y ys (y :: seen)).1 hmem).2 (List.mem_cons_self y seen)

theorem dropDupsAux_eq_self (xs : List (List Value)) :
    ∀ seen, xs.Nodup → (∀ x ∈ xs, x ∉ seen) → dropDupsAux seen xs = xs := by
  induction xs with
  | nil => intro seen _ _; simp [dropDupsAux]
  | cons y ys ih =>
    intro seen hnd hfresh
    have hy : y ∉ seen := hfresh y (List.mem_cons_self y ys)
    simp only [dropDupsAux, if_neg hy]
    congr 1
    apply ih (y :: seen) (List.nodup_cons.1 hnd).2
    intro x hx
    intro hc
    rcases List.mem_cons.1 hc with rfl | h
    · exact (List.nodup_cons.1 hnd).1 hx
    · exact hfresh x (List.mem_cons_of_mem _ hx) h

theorem dropDupsAux_eq_keepFirstOcc (xs : List (List Value)) :
    ∀ seen pre, (∀ y, y ∈ seen ↔ y ∈ pre) →
      dropDupsAux seen xs = keepFirstOcc pre xs := by
  induction xs with
  | nil => intro seen pre _; simp [dropDupsAux, keepFirstOcc]
  | cons y ys ih =>
    intro seen pre h
    simp only [dropDupsAux, keepFirstOcc]
    by_cases hy : y ∈ seen
    · rw [if_pos hy, if_pos ((h y).1 hy)]
      apply ih
      intro z
      rw [h z]
      constructor
      · intro hz; exact List.mem_append_left _ hz
      · intro hz
        rcases List.mem_append.1 hz with hz | hz
        · exact hz
        · rcases List.mem_singleton.1 hz with rfl
          exact (h z).1 hy
    · rw [if_neg hy, if_neg (fun hc => hy ((h y).2 hc))]
      congr 1
      apply ih
      intro z
      simp only [List.mem_cons, List.mem_append, List.mem_singleton, h z]
      tauto


theorem getD_map_rows (g : List Value → List Value) (rows : List (List Value))
    (k : Nat) (hk : k < rows.length) :
    (rows.map g).getD k [] = g (rows.getD k []) := by
  rw [List.getD_eq_getElem?_getD, List.getElem?_map, List.getElem?_eq_getElem hk,
    List.getD_eq_getElem?_getD, List.getElem?_eq_getElem hk]
  rfl

theorem getD_rows_mem (rows : List (List Value)) (k : Nat) (hk : k < rows.length) :
    rows.getD k [] ∈ rows := by
  rw [List.getD_eq_getElem?_getD, List.getElem?_eq_getElem hk]
  exact List.getElem_mem hk

theorem assignColumn_mem_cols (df : Table) (c : String) (f : List Value → Value) :
    c ∈ (assignColumn df c f).cols := by
  by_cases h : c ∈ df.cols <;> simp [assignColumn, h]

theorem assignColumn_length (df : Table) (c : String) (f : List Value → Value) :
    (assignColumn df c f).rows.length = df.rows.length := by
  by_cases h : c ∈ df.cols <;> simp [assignColumn, h]

theorem assignColumn_cell (df : Table) (c : String) (f : List Value → Value)
    (hwf : df.wf = true) (k : Nat) (hk : k < df.rows.length) :
    getCell (assignColumn df c f).cols ((assignColumn df c f).rows.getD k []) c
      = f (df.rows.getD k []) := by
  have hrlen : (df.rows.getD k []).length = df.cols.length :=
    wf_row_length hwf (getD_rows_mem df.rows k hk)
  by_cases h : c ∈ df.cols
  · simp only [assignColumn, if_pos h]
    rw [getD_map_rows _ _ _ hk]
    exact getCell_set_self df.cols _ c _ h hrlen
  · simp only [assignColumn, if_neg h]
    have hmem : c ∈ df.cols ++ [c] := List.mem_append_right _ (List.mem_singleton_self c)
    rw [getD_map_rows _ _ _ hk, getCell_eq_getD _ _ _ hmem,
      List.indexOf_append_of_not_mem h]
    simp only [List.indexOf_cons_self, Nat.add_zero]
    rw [← hrlen]
    exact getD_append_self _ _ _

theorem assignColumn_cols_of_not_mem (df : Table) (c : String) (f : List Value → Value)
    (h : c ∉ df.cols) : (assignColumn df c f).cols = df.cols ++ [c] := by
  simp [assignColumn, h]

theorem assignColumn_frame (df : Table) (c : String) (f : List Value → Value)
    (hwf : df.wf = true) (hnotin : c ∉ df.cols) (k : Nat) (hk : k < df.rows.length)
    (c2 : String) (hc2 : c2 ∈ df.cols) :
    getCell (assignColumn df c f).cols ((assignColumn df c f).rows.getD k []) c2
      = getCell df.cols (df.rows.getD k []) c2 := by
  have hrlen : (df.rows.getD k []).length = df.cols.length :=
    wf_row_length hwf (getD_rows_mem df.rows k hk)
  simp only [assignColumn, if_neg hnotin]
  have hmem2 : c2 ∈ df.cols ++ [c] := List.mem_append_left _ hc2
  rw [getD_map_rows _ _ _ hk, getCell_eq_getD _ _ _ hmem2, getCell_eq_getD _ _ _ hc2,
    List.indexOf_append_of_mem hc2]
  exact getD_append_left _ _ _ _ (hrlen ▸ List.indexOf_lt_length.2 hc2)

theorem coerceDatetime_isDtOrNull (parse : Value → Option Int) (v : Value) :
    (coerceDatetime parse v).isDtOrNull = true := by
  cases hp : parse v <;> simp [coerceDatetime, hp, Value.isDtOrNull]

theorem convertColumn_spec (parse : Value → Option Int) (df : Table) (c : String)
    (hc : c ∈ df.cols) (hwf : df.wf = true) :
    ∃ out, convertColumn parse df c = some out ∧ out.cols = df.cols ∧
      out.wf = true ∧ out.rows.length = df.rows.length ∧
      (∀ r ∈ out.rows, (getCell out.cols r c).isDtOrNull = true) ∧
      (∀ k, k < df.rows.length → ∀ c2, c2 ≠ c →
        getCell out.cols (out.rows.getD k []) c2 = getCell df.cols (df.rows.getD k []) c2) := by
  refine ⟨{ cols := df.cols,
            rows := df.rows.map (fun r =>
              r.set (List.indexOf c df.cols)
                (coerceDatetime parse (r.getD (List.indexOf c df.cols) Value.null))) },
          by simp [convertColumn, hc], rfl, ?_, by simp, ?_, ?_⟩
  · simp only [Table.wf, List.all_eq_true] at hwf ⊢
    intro r hr
    obtain ⟨r0, hr0, rfl⟩ := List.mem_map.1 hr
    simpa using hwf r0 hr0
  · intro r hr
    obtain ⟨r0, hr0, rfl⟩ := List.mem_map.1 hr
    have hlen : r0.length = df.cols.length := wf_row_length hwf hr0
    rw [getCell_set_self df.cols _ c _ hc hlen]
    exact coerceDatetime_isDtOrNull parse _
  · intro k hk c2 hne
    rw [getD_map_rows _ _ _ hk]
    exact getCell_set_ne df.cols _ c c2 _ hc hne

theorem convert_fold_spec (parse : Value → Option Int) :
    ∀ (dtcols : List String) (df : Table),
      (∀ c ∈ dtcols, c ∈ df.cols) → df.wf = true →
      ∃ out, convert_datetime_columns parse df dtcols = some out ∧
        out.cols = df.cols ∧ out.wf = true ∧ out.rows.length = df.rows.length ∧
        (∀ c ∈ dtcols, ∀ r ∈ out.rows, (getCell out.cols r c).isDtOrNull = true) ∧
        (∀ k, k < df.rows.length → ∀ c2, c2 ∉ dtcols →
          getCell out.cols (out.rows.getD k []) c2 = getCell df.cols (df.rows.getD k []) c2) := by
  intro dtcols
  induction dtcols with
  | nil =>
    intro df hpres hwf
    exact ⟨df, rfl, rfl, hwf, rfl, by simp, fun k _ c2 _ => rfl⟩
  | cons c rest ih =>
    intro df hpres hwf
    obtain ⟨df2, hconv, hcols2, hwf2, hlen2, hdt2, hframe2⟩ :=
      convertColumn_spec parse df c (hpres c (List.mem_cons_self c rest)) hwf
    obtain ⟨out, hrec, hcols3, hwf3, hlen3, hdt3, hframe3⟩ :=
      ih df2 (fun c2 hc2 => hcols2 ▸ hpres c2 (List.mem_cons_of_mem c hc2)) hwf2
    refine ⟨out, ?_, hcols3.trans hcols2, hwf3, hlen3.trans hlen2, ?_, ?_⟩
    · simp only [convert_datetime_columns, hconv]
      exact hrec
    · intro c2 hc2 r hr
      by_cases hcr : c2 ∈ rest
      · exact hdt3 c2 hcr r hr
      · have hc2c : c2 = c := by
          rcases List.mem_cons.1 hc2 with h | h
          · exact h
          · exact absurd h hcr
        subst hc2c
        obtain ⟨n, hn, rfl⟩ := List.mem_iff_getElem.1 hr
        have hrn : out.rows[n] = out.rows.getD n [] := by
          rw [List.getD_eq_getElem?_getD, List.getElem?_eq_getElem hn, Option.getD_some]
        have hn2 : n < df2.rows.length := hlen3 ▸ hn
        rw [hrn, hframe3 n hn2 c2 hcr]
        exact hdt2 _ (getD_rows_mem df2.rows n hn2)
    · intro k hk c2 hc2
      have hk2 : k < df2.rows.length := hlen2 ▸ hk
      have hne : c2 ≠ c := fun h => hc2 (h ▸ List.mem_cons_self c rest)
      have hnr : c2 ∉ rest := fun h => hc2 (List.mem_cons_of_mem c h)
      rw [hframe3 k hk2 c2 hnr]
      exact hframe2 k hk c2 hne

theorem projectColumns_spec (df : Table) (cols : List String)
    (hpres : ∀ c ∈ cols, c ∈ df.cols) :
    ∃ out, projectColumns df cols = some out ∧ out.cols = cols ∧ out.wf = true ∧
      out.rows.length = df.rows.length ∧
      ∀ k, k < df.rows.length → ∀ c ∈ cols,
        getCell out.cols (out.rows.getD k []) c = getCell df.cols (df.rows.getD k []) c := by
  have hall : cols.all (fun c => decide (c ∈ df.cols)) = true := by
    rw [List.all_eq_true]
    intro c hc
    exact decide_eq_true (hpres c hc)
  refine ⟨{ cols := cols,
            rows := df.rows.map (fun r => cols.map (fun c => getCell df.cols r c)) },
          by simp [projectColumns, hall], rfl, ?_, by simp, ?_⟩
  · rw [Table.wf, List.all_eq_true]
    intro r hr
    obtain ⟨r0, _, rfl⟩ := List.mem_map.1 hr
    simp
  · intro k hk c hc
    rw [getD_map_rows _ _ _ hk, getCell_eq_getD _ _ _ hc]
    have hidx : List.indexOf c cols < cols.length := List.indexOf_lt_length.2 hc
    rw [List.getD_eq_getElem?_getD, List.getElem?_map, List.getElem?_eq_getElem hidx]
    simp only [Option.map_some', Option.getD_some]
    rw [List.getElem_indexOf hidx]

theorem clean_data_inv {df out : Table} (h : clean_data df = some out) :
    (∀ c ∈ critical_columns, c ∈ df.cols) ∧ out.cols = df.cols ∧
    out.rows = drop_duplicates (df.rows.filter (fun r => rowComplete df.cols r)) := by
  unfold clean_data at h
  split at h
  case isTrue hcond =>
    have heq := Option.some.inj h
    subst heq
    refine ⟨?_, rfl, rfl⟩
    intro c hc
    exact of_decide_eq_true (List.all_eq_true.1 hcond c hc)
  case isFalse hcond => cases h

theorem clean_data_eq (df : Table) (h : ∀ c ∈ critical_columns, c ∈ df.cols) :
    clean_data df = some { cols := df.cols,
                           rows := drop_duplicates
                             (df.rows.filter (fun r => rowComplete df.cols r)) } := by
  have hcond : critical_columns.all (fun c => decide (c ∈ df.cols)) = true := by
    rw [List.all_eq_true]
    intro c hc
    exact decide_eq_true (h c hc)
  simp [clean_data, hcond]

theorem clean_rows_mem {df out : Table} (h : clean_data df = some out) {r : List Value}
    (hr : r ∈ out.rows) : r ∈ df.rows ∧ rowComplete df.cols r = true := by
  obtain ⟨-, -, hrows⟩ := clean_data_inv h
  rw [hrows] at hr
  have hmem := ((mem_dropDupsAux r _ []).1 hr).1
  exact ⟨(List.mem_filter.1 hmem).1, (List.mem_filter.1 hmem).2⟩

theorem clean_data_wf {df out : Table} (h : clean_data df = some out) (hwf : df.wf = true) :
    out.wf = true := by
  obtain ⟨-, hcols, -⟩ := clean_data_inv h
  rw [Table.wf, List.all_eq_true]
  intro r hr
  have hr2 : r ∈ df.rows := (clean_rows_mem h hr).1
  rw [hcols]
  simpa using wf_row_length hwf hr2

theorem clean_data_length_le {df out : Table} (h : clean_data df = some out) :
    out.rows.length ≤ df.rows.length := by
  obtain ⟨-, -, hrows⟩ := clean_data_inv h
  rw [hrows]
  exact ((dropDupsAux_sublist _ []).length_le).trans (List.length_filter_le _ _)

theorem rowComplete_nonNull {cols : List String} {r : List Value}
    (h : rowComplete cols r = true) {c : String} (hc : c ∈ critical_columns) :
    (getCell cols r c).isNull = false := by
  have := List.all_eq_true.1 h c hc
  simpa using this

theorem convertColumn_inv (parse : Value → Option Int) (df out : Table) (c : String)
    (h : convertColumn parse df c = some out) : c ∈ df.cols := by
  unfold convertColumn at h
  split at h
  case isTrue hc => exact hc
  case isFalse => cases h

theorem convert_fold_inv (parse : Value → Option Int) :
    ∀ (dtcols : List String) (df out : Table),
      convert_datetime_columns parse df dtcols = some out → df.wf = true →
      out.cols = df.cols ∧ out.wf = true ∧ out.rows.length = df.rows.length ∧
      (∀ k, k < df.rows.length → ∀ c2, c2 ∉ dtcols →
        getCell out.cols (out.rows.getD k []) c2 = getCell df.cols (df.rows.getD k []) c2) := by
  intro dtcols
  induction dtcols with
  | nil =>
    intro df out h hwf
    obtain rfl := Option.some.inj h
    exact ⟨rfl, hwf, rfl, fun k _ c2 _ => rfl⟩
  | cons c rest ih =>
    intro df out h hwf
    cases hconv : convertColumn parse df c with
    | none =>
      simp only [convert_datetime_columns, hconv] at h
      cases h
    | some df2 =>
      simp only [convert_datetime_columns, hconv] at h
      have hc : c ∈ df.cols := convertColumn_inv parse df df2 c hconv
      obtain ⟨df2s, hconv2, hcols2, hwf2, hlen2, -, hframe2⟩ :=
        convertColumn_spec parse df c hc hwf
      have hdfeq : df2 = df2s := Option.some.inj (hconv.symm.trans hconv2)
      subst hdfeq
      obtain ⟨hcols3, hwf3, hlen3, hframe3⟩ := ih df2 out h hwf2
      refine ⟨hcols3.trans hcols2, hwf3, hlen3.trans hlen2, ?_⟩
      intro k hk c2 hc2
      have hk2 : k < df2.rows.length := hlen2 ▸ hk
      have hne : c2 ≠ c := fun heq => hc2 (heq ▸ List.mem_cons_self c rest)
      have hnr : c2 ∉ rest := fun hmem => hc2 (List.mem_cons_of_mem c hmem)
      rw [hframe3 k hk2 c2 hnr]
      exact hframe2 k hk c2 hne

theorem projectColumns_inv (df : Table) (cols : List String) (out : Table)
    (h : projectColumns df cols = some out) :
    out.cols = cols ∧ out.wf = true ∧ out.rows.length = df.rows.length ∧
    ∀ k, k < df.rows.length → ∀ c ∈ cols,
      getCell out.cols (out.rows.getD k []) c = getCell df.cols (df.rows.getD k []) c := by
  have hpres : ∀ c ∈ cols, c ∈ df.cols := by
    unfold projectColumns at h
    split at h
    case isTrue hcond =>
      intro c hc
      exact of_decide_eq_true (List.all_eq_true.1 hcond c hc)
    case isFalse => cases h
  obtain ⟨out0, heq, h1, h2, h3, h4⟩ := projectColumns_spec df cols hpres
  obtain rfl := Option.some.inj (h.symm.trans heq)
  exact ⟨h1, h2, h3, h4⟩

theorem identify_inv (df : Table) (pc : String) (τ : Rat) (out : Table)
    (h : identify_high_impact_events df pc τ = some out) :
    pc ∈ df.cols ∧
    out = assignColumn df "High Impact"
      (fun r => Value.bool (valueGt (r.getD (List.indexOf pc df.cols) Value.null) τ)) := by
  unfold identify_high_impact_events at h
  split at h
  case isTrue hc => exact ⟨hc, (Option.some.inj h).symm⟩
  case isFalse => cases h

/-- C1: for every table, pollutant column present in the table, and
numeric threshold, `identify_high_impact_events` adds a boolean column
'High Impact' such that for every row the flag equals
`pollutant_value > threshold` when the pollutant value is non-null, and
the flag is false when the pollutant value is null. -/
theorem identify_high_impact_total_flag (df : Table) (pc : String) (τ : Rat)
    (hpc : pc ∈ df.cols) (hwf : df.wf = true) :
    ∃ out, identify_high_impact_events df pc τ = some out ∧
      "High Impact" ∈ out.cols ∧ out.rows.length = df.rows.length ∧
      ∀ k, k < df.rows.length →
        (getCell df.cols (df.rows.getD k []) pc = Value.null →
          getCell out.cols (out.rows.getD k []) "High Impact" = Value.bool false) ∧
        (∀ q : Rat, getCell df.cols (df.rows.getD k []) pc = Value.num q →
          getCell out.cols (out.rows.getD k []) "High Impact"
            = Value.bool (decide (q > τ))) := by
  refine ⟨assignColumn df "High Impact"
      (fun r => Value.bool (valueGt (r.getD (List.indexOf pc df.cols) Value.null) τ)),
    by simp [identify_high_impact_events, hpc], assignColumn_mem_cols df _ _,
    assignColumn_length df _ _, ?_⟩
  intro k hk
  have hcell := assignColumn_cell df "High Impact"
    (fun r => Value.bool (valueGt (r.getD (List.indexOf pc df.cols) Value.null) τ)) hwf k hk
  have hpcell : getCell df.cols (df.rows.getD k []) pc
      = (df.rows.getD k []).getD (List.indexOf pc df.cols) Value.null :=
    getCell_eq_getD _ _ _ hpc
  constructor
  · intro hnull
    rw [hpcell] at hnull
    rw [hcell]
    show Value.bool (valueGt ((df.rows.getD k []).getD (List.indexOf pc df.cols) Value.null) τ)
      = Value.bool false
    rw [hnull]
    rfl
  · intro q hq
    rw [hpcell] at hq
    rw [hcell]
    show Value.bool (valueGt ((df.rows.getD k []).getD (List.indexOf pc df.cols) Value.null) τ)
      = Value.bool (decide (q > τ))
    rw [hq]
    rfl

/-- Witness for C1 at the spec's scenario table with threshold 100. -/
theorem identify_high_impact_total_flag_witness :
    ∃ out, identify_high_impact_events exScenario "Max_PM10" 100 = some out ∧
      "High Impact" ∈ out.cols ∧ out.rows.length = exScenario.rows.length ∧
      ∀ k, k < exScenario.rows.length →
        (getCell exScenario.cols (exScenario.rows.getD k []) "Max_PM10" = Value.null →
          getCell out.cols (out.rows.getD k []) "High Impact" = Value.bool false) ∧
        (∀ q : Rat,
          getCell exScenario.cols (exScenario.rows.getD k []) "Max_PM10" = Value.num q →
          getCell out.cols (out.rows.getD k []) "High Impact"
            = Value.bool (decide (q > (100 : Rat)))) :=
  identify_high_impact_total_flag exScenario "Max_PM10" 100 (by decide) (by decide)

/-- C2: for every input table holding the critical columns, `clean_data`
first drops every row with a null critical cell, then drops exact
duplicate rows; the result has at most as many rows as the input, every
surviving row is an input row, and no critical cell of a surviving row is
null. -/
theorem clean_data_filters_then_dedups (df : Table)
    (hcrit : ∀ c ∈ critical_columns, c ∈ df.cols) :
    ∃ out, clean_data df = some out ∧ out.cols = df.cols ∧
      out.rows = drop_duplicates (df.rows.filter (fun r => rowComplete df.cols r)) ∧
      out.rows.length ≤ df.rows.length ∧
      ∀ r ∈ out.rows, r ∈ df.rows ∧
        ∀ c ∈ critical_columns, (getCell out.cols r c).isNull = false := by
  have h := clean_data_eq df hcrit
  refine ⟨_, h, rfl, rfl, clean_data_length_le h, ?_⟩
  intro r hr
  obtain ⟨hmem, hcomp⟩ := clean_rows_mem h hr
  exact ⟨hmem, fun c hc => rowComplete_nonNull hcomp hc⟩

/-- Witness for C2 at the spec's scenario table. -/
theorem clean_data_filters_then_dedups_witness :
    ∃ out, clean_data exScenario = some out ∧ out.cols = exScenario.cols ∧
      out.rows = drop_duplicates
        (exScenario.rows.filter (fun r => rowComplete exScenario.cols r)) ∧
      out.rows.length ≤ exScenario.rows.length ∧
      ∀ r ∈ out.rows, r ∈ exScenario.rows ∧
        ∀ c ∈ critical_columns, (getCell out.cols r c).isNull = false :=
  clean_data_filters_then_dedups exScenario (by decide)

/-- C5: projecting a table onto a list of present column names yields a
table with exactly those columns in that order, the same row count and
row order, with the values of all kept columns unchanged. -/
theorem projection_preserves_rows (df : Table) (cols : List String)
    (hpres : ∀ c ∈ cols, c ∈ df.cols) :
    ∃ out, projectColumns df cols = some out ∧ out.cols = cols ∧
      out.rows.length = df.rows.length ∧
      ∀ k, k < df.rows.length → ∀ c ∈ cols,
        getCell out.cols (out.rows.getD k []) c = getCell df.cols (df.rows.getD k []) c := by
  obtain ⟨out, h1, h2, -, h4, h5⟩ := projectColumns_spec df cols hpres
  exact ⟨out, h1, h2, h4, h5⟩

/-- Witness for C5: projecting the full example table onto the pipeline's
columns of interest. -/
theorem projection_preserves_rows_witness :
    ∃ out, projectColumns exFull columns_of_interest = some out ∧
      out.cols = columns_of_interest ∧
      out.rows.length = exFull.rows.length ∧
      ∀ k, k < exFull.rows.length → ∀ c ∈ columns_of_interest,
        getCell out.cols (out.rows.getD k []) c
          = getCell exFull.cols (exFull.rows.getD k []) c :=
  projection_preserves_rows exFull columns_of_interest (by decide)

/-- C6: for every path, a missing file makes `load_data` return the
absent value (no exception is modelled to escape), and an absent load
makes the pipeline halt before the cleaning step (`RunResult.halted`). -/
theorem load_data_missing_halts (fs : String → Option Table)
    (parse : Value → Option Int) (p : String) :
    (fs p = none → load_data fs p = none) ∧
    (load_data fs data_path = none → run_pipeline parse fs = RunResult.halted) := by
  constructor
  · intro h
    exact h
  · intro h
    unfold run_pipeline
    rw [h]

/-- Witness for C6 on an empty filesystem. -/
theorem load_data_missing_halts_witness :
    load_data (fun _ => (none : Option Table)) "no_such_file.csv" = none ∧
    run_pipeline exParseNone (fun _ => (none : Option Table)) = RunResult.halted :=
  ⟨(load_data_missing_halts (fun _ => none) exParseNone "no_such_file.csv").1 rfl,
   (load_data_missing_halts (fun _ => none) exParseNone "no_such_file.csv").2 rfl⟩

/-- C7: `save_cleaned_data` never raises: a failing write is reported as
an error message and the function returns normally with only that message,
while a successful write yields only the confirmation message — no
success/failure value reaches the caller either way. -/
theorem save_cleaned_data_reports (write : String → Table → Except String Unit)
    (df : Table) (p : String) :
    (∀ e, write p df = Except.error e →
      save_cleaned_data write df p = "Error saving file: " ++ e) ∧
    (∀ u, write p df = Except.ok u →
      save_cleaned_data write df p = "Cleaned data saved to " ++ p) := by
  constructor
  · intro e h
    simp [save_cleaned_data, h]
  · intro u h
    simp [save_cleaned_data, h]

/-- Witness for C7: a writer that always fails with "disk full". -/
theorem save_cleaned_data_reports_witness :
    save_cleaned_data exFailWrite exScenario output_path
      = "Error saving file: " ++ "disk full" :=
  (save_cleaned_data_reports exFailWrite exScenario output_path).1 "disk full" rfl

/-- C8: cleaning is idempotent: applying `clean_data` to a table it
produced returns that table unchanged (same rows, order, and values). -/
theorem clean_data_idempotent (df out : Table) (h : clean_data df = some out) :
    clean_data out = some out := by
  obtain ⟨hcrit, hcols, hrows⟩ := clean_data_inv h
  have hcrit2 : ∀ c ∈ critical_columns, c ∈ out.cols := fun c hc => hcols ▸ hcrit c hc
  have heq := clean_data_eq out hcrit2
  have hfilter : out.rows.filter (fun r => rowComplete out.cols r) = out.rows := by
    apply List.filter_eq_self.2
    intro r hr
    have hcomp := (clean_rows_mem h hr).2
    rw [hcols]
    exact hcomp
  have hnodup : out.rows.Nodup := by
    rw [hrows]
    exact nodup_dropDupsAux _ []
  have hdedup : drop_duplicates out.rows = out.rows := by
    unfold drop_duplicates
    exact dropDupsAux_eq_self out.rows [] hnodup (fun x _ hc => (List.not_mem_nil x) hc)
  rw [heq, hfilter, hdedup]

/-- Witness for C8: re-cleaning the cleaned scenario table is a no-op. -/
theorem clean_data_idempotent_witness :
    clean_data exScenarioCleaned = some exScenarioCleaned :=
  clean_data_idempotent exScenario exScenarioCleaned (by decide)

/-- C9 counterexample: on a table that already has a 'High Impact' column
the flagger overwrites that pre-existing column in place (its cell changes
from the string "x" to the boolean true while the column list is
unchanged), so the claim that every pre-existing column's values survive
unchanged fails at this input. -/
theorem identify_high_impact_overwrites_existing :
    (identify_high_impact_events exPreFlagged "Max_PM10" 100).map
        (fun t => getCell t.cols (t.rows.getD 0 []) "High Impact")
      = some (Value.bool true) ∧
    getCell exPreFlagged.cols (exPreFlagged.rows.getD 0 []) "High Impact"
      = Value.str "x" ∧
    (identify_high_impact_events exPreFlagged "Max_PM10" 100).map (fun t => t.cols)
      = some exPreFlagged.cols := by
  exact ⟨by decide, by decide, by decide⟩

/-- C9 (amended): for every well-formed table that contains the pollutant
column and does not already contain a 'High Impact' column, the flagger
changes nothing except appending the 'High Impact' column: row count, row
order, and the values of every pre-existing column are identical. -/
theorem identify_high_impact_frame (df : Table) (pc : String) (τ : Rat)
    (hpc : pc ∈ df.cols) (hhi : "High Impact" ∉ df.cols) (hwf : df.wf = true) :
    ∃ out, identify_high_impact_events df pc τ = some out ∧
      out.cols = df.cols ++ ["High Impact"] ∧
      out.rows.length = df.rows.length ∧
      ∀ k, k < df.rows.length → ∀ c ∈ df.cols,
        getCell out.cols (out.rows.getD k []) c
          = getCell df.cols (df.rows.getD k []) c := by
  refine ⟨assignColumn df "High Impact"
      (fun r => Value.bool (valueGt (r.getD (List.indexOf pc df.cols) Value.null) τ)),
    by simp [identify_high_impact_events, hpc],
    assignColumn_cols_of_not_mem df _ _ hhi,
    assignColumn_length df _ _, ?_⟩
  intro k hk c hc
  exact assignColumn_frame df "High Impact" _ hwf hhi k hk c hc

/-- Witness for the amended C9 at the scenario table. -/
theorem identify_high_impact_frame_witness :
    ∃ out, identify_high_impact_events exScenario "Max_PM10" 100 = some out ∧
      out.cols = exScenario.cols ++ ["High Impact"] ∧
      out.rows.length = exScenario.rows.length ∧
      ∀ k, k < exScenario.rows.length → ∀ c ∈ exScenario.cols,
        getCell out.cols (out.rows.getD k []) c
          = getCell exScenario.cols (exScenario.rows.getD k []) c :=
  identify_high_impact_frame exScenario "Max_PM10" 100 (by decide) (by decide) (by decide)

/-- C10: cleaning keeps each surviving row exactly as it appeared in the
input, preserves the survivors' relative order (the output rows are a
sublist of the input rows), and among fully identical rows keeps exactly
the first occurrence (`keepFirstOcc`). -/
theorem clean_data_keeps_first_occurrences (df out : Table)
    (h : clean_data df = some out) :
    out.rows.Sublist df.rows ∧
    out.rows = keepFirstOcc [] (df.rows.filter (fun r => rowComplete df.cols r)) := by
  obtain ⟨-, -, hrows⟩ := clean_data_inv h
  constructor
  · rw [hrows]
    exact (dropDupsAux_sublist _ []).trans (List.filter_sublist df.rows)
  · rw [hrows]
    unfold drop_duplicates
    exact dropDupsAux_eq_keepFirstOcc _ [] [] (fun y => Iff.rfl)

/-- Witness for C10 on a table with two identical rows. -/
theorem clean_data_keeps_first_occurrences_witness :
    exScenarioCleaned.rows.Sublist exDup.rows ∧
    exScenarioCleaned.rows
      = keepFirstOcc [] (exDup.rows.filter (fun r => rowComplete exDup.cols r)) :=
  clean_data_keeps_first_occurrences exDup exScenarioCleaned (by decide)

/-- C3: for every abstract datetime parser, well-formed table, and list of
datetime columns all present in the table, `convert_datetime_columns`
returns a table (it never raises), and afterwards every cell of each
listed column is a valid datetime or the null marker — never raw text. -/
theorem convert_datetime_columns_total (parse : Value → Option Int) (df : Table)
    (dtcols : List String) (hpres : ∀ c ∈ dtcols, c ∈ df.cols) (hwf : df.wf = true) :
    ∃ out, convert_datetime_columns parse df dtcols = some out ∧
      ∀ c ∈ dtcols, ∀ r ∈ out.rows, (getCell out.cols r c).isDtOrNull = true := by
  obtain ⟨out, h1, -, -, -, h5, -⟩ := convert_fold_spec parse dtcols df hpres hwf
  exact ⟨out, h1, h5⟩

/-- Witness for C3 with a parser that fails on every cell. -/
theorem convert_datetime_columns_total_witness :
    ∃ out, convert_datetime_columns exParseNone exFull datetime_columns = some out ∧
      ∀ c ∈ datetime_columns, ∀ r ∈ out.rows, (getCell out.cols r c).isDtOrNull = true :=
  convert_datetime_columns_total exParseNone exFull datetime_columns (by decide) (by decide)

/-- C4: every run of the pipeline that reaches the save step saves a table
whose row count is at most the cleaned count, which is at most the loaded
count; every saved row has non-null critical cells; and the 'High Impact'
column is present on the saved table. -/
theorem pipeline_invariants (parse : Value → Option Int) (fs : String → Option Table)
    (df t : Table) (hfs : fs data_path = some df) (hwf : df.wf = true)
    (hrun : run_pipeline parse fs = RunResult.finished t) :
    ∃ cleaned, clean_data df = some cleaned ∧
      t.rows.length ≤ cleaned.rows.length ∧ cleaned.rows.length ≤ df.rows.length ∧
      "High Impact" ∈ t.cols ∧
      ∀ r ∈ t.rows, ∀ c ∈ critical_columns, (getCell t.cols r c).isNull = false := by
  unfold run_pipeline load_data at hrun
  rw [hfs] at hrun
  have hrun1 : (match clean_data df with
      | none => RunResult.fatalError
      | some df1 =>
        match convert_datetime_columns parse df1 datetime_columns with
        | none => RunResult.fatalError
        | some df2 =>
          match projectColumns df2 columns_of_interest with
          | none => RunResult.fatalError
          | some df3 =>
            match identify_high_impact_events df3 "Max_PM10" pm10_threshold with
            | none => RunResult.fatalError
            | some df4 => RunResult.finished df4) = RunResult.finished t := hrun
  clear hrun
  split at hrun1
  · exact RunResult.noConfusion hrun1
  · rename_i df1 h1
    split at hrun1
    · exact RunResult.noConfusion hrun1
    · rename_i df2 h2
      split at hrun1
      · exact RunResult.noConfusion hrun1
      · rename_i df3 h3
        split at hrun1
        · exact RunResult.noConfusion hrun1
        · rename_i df4 h4
          injection hrun1 with hteq
          subst hteq
          have hwf1 := clean_data_wf h1 hwf
          obtain ⟨hcritcols, hcols1, -⟩ := clean_data_inv h1
          obtain ⟨hcols2, hwf2, hlen2, hframe2⟩ :=
            convert_fold_inv parse datetime_columns df1 df2 h2 hwf1
          obtain ⟨hcols3, hwf3, hlen3, hframe3⟩ :=
            projectColumns_inv df2 columns_of_interest df3 h3
          obtain ⟨hpc4, hdf4⟩ := identify_inv df3 "Max_PM10" pm10_threshold df4 h4
          have hHI : "High Impact" ∉ df3.cols := by
            rw [hcols3]
            decide
          refine ⟨df1, h1, ?_, clean_data_length_le h1, ?_, ?_⟩
          · have hle : df4.rows.length = df1.rows.length := by
              rw [hdf4, assignColumn_length, hlen3, hlen2]
            exact le_of_eq hle
          · rw [hdf4]
            exact assignColumn_mem_cols df3 _ _
          · intro r hr c hc
            obtain ⟨n, hn, rfl⟩ := List.mem_iff_getElem.1 hr
            have hrn : df4.rows[n] = df4.rows.getD n [] := by
              rw [List.getD_eq_getElem?_getD, List.getElem?_eq_getElem hn, Option.getD_some]
            rw [hrn]
            have hn3 : n < df3.rows.length := by
              rw [hdf4, assignColumn_length] at hn
              exact hn
            have hn2 : n < df2.rows.length := hlen3 ▸ hn3
            have hn1 : n < df1.rows.length := hlen2 ▸ hn2
            have hccoi : c ∈ columns_of_interest := by
              have hsub : ∀ x ∈ critical_columns, x ∈ columns_of_interest := by decide
              exact hsub c hc
            have hc3 : c ∈ df3.cols := by
              rw [hcols3]
              exact hccoi
            have hframe4 : getCell df4.cols (df4.rows.getD n []) c
                = getCell df3.cols (df3.rows.getD n []) c := by
              rw [hdf4]
              exact assignColumn_frame df3 "High Impact" _ hwf3 hHI n hn3 c hc3
            have hframe3c := hframe3 n hn2 c hccoi
            have hcnotdt : c ∉ datetime_columns := by
              have hdisj : ∀ x ∈ critical_columns, x ∉ datetime_columns := by decide
              exact hdisj c hc
            have hframe2c := hframe2 n hn1 c hcnotdt
            have hrow1mem : df1.rows.getD n [] ∈ df1.rows := getD_rows_mem _ n hn1
            obtain ⟨-, hcomp⟩ := clean_rows_mem h1 hrow1mem
            have hnonnull := rowComplete_nonNull hcomp hc
            rw [hframe4, hframe3c, hframe2c, hcols1]
            exact hnonnull

/-- Witness for C4: a complete run on the example filesystem. -/
theorem pipeline_invariants_witness :
    ∃ cleaned, clean_data exFull = some cleaned ∧
      exSaved.rows.length ≤ cleaned.rows.length ∧
      cleaned.rows.length ≤ exFull.rows.length ∧
      "High Impact" ∈ exSaved.cols ∧
      ∀ r ∈ exSaved.rows, ∀ c ∈ critical_columns,
        (getCell exSaved.cols r c).isNull = false :=
  pipeline_invariants exParseNone exFs exFull exSaved (by decide) (by decide) (by decide)
